import Mathlib

/-!
Verification development for the lazy-chain TUI repository.

The definitions below are shallow embeddings of the Go source:
string-manipulating helpers from models/settings/networks_clients.go,
the configuration types from models/settings/config.go, the network
session manager and the settings update loop from the settings package,
and the navigation layer from main.go.  External effects (network round
trips, the filesystem) are modelled by explicit environment records and
an explicit file-store value threaded through the state transformers.

Strings are compared character-wise; the Go code indexes by byte, which
agrees with the character index on the ASCII inputs these functions
receive (URLs, ports, field tags).
-/

namespace LazyChain

/-! ## String helpers (models/settings/networks_clients.go)

Implemented over List Char so that every definition reduces inside the
kernel; String.trim and String.splitOn from core do not. -/

/-- Go strings.TrimSpace: strip whitespace from both ends. -/
def goTrimSpace (s : String) : String :=
  ⟨((s.data.dropWhile Char.isWhitespace).reverse.dropWhile Char.isWhitespace).reverse⟩

/-- Go func trimSlash: strings.TrimRight(strings.TrimSpace(s), "/"). -/
def trimSlash (s : String) : String :=
  ⟨(((goTrimSpace s).data.reverse.dropWhile (fun c => c = '/')).reverse)⟩

/-- Whether the pattern is an initial segment of the character list. -/
def leadingMatch : List Char → List Char → Bool
  | [], _ => true
  | _ :: _, [] => false
  | a :: pa, b :: sb => a = b && leadingMatch pa sb

/-- Character index of the first occurrence of the pattern, if any. -/
def firstMatchIdx (pat : List Char) : List Char → Option Nat
  | [] => if pat.isEmpty then some 0 else none
  | c :: rest =>
    if leadingMatch pat (c :: rest) then some 0
    else
      match firstMatchIdx pat rest with
      | some i => some (i + 1)
      | none => none

/-- The characters of the scheme separator "://". -/
def schemeSep : List Char := [':', '/', '/']

/-- Go func hasScheme: strings.Contains(s, "://"). -/
def hasScheme (s : String) : Bool :=
  (firstMatchIdx schemeSep s.data).isSome

/-- Index of the last colon in the string, minus one if absent
(Go strings.LastIndex(u, ":")). -/
def lastColonIndex (s : String) : Int :=
  match s.data.reverse.findIdx? (fun c => c = ':') with
  | some k => (s.data.length : Int) - 1 - (k : Int)
  | none => -1

/-- Index of the first occurrence of "://", minus one if absent
(Go strings.Index(u, "://")). -/
def schemeIndex (s : String) : Int :=
  match firstMatchIdx schemeSep s.data with
  | some i => (i : Int)
  | none => -1

/-- Go func hasExplicitPort: LastIndex(u, ":") > Index(u, "://") + 2. -/
def hasExplicitPort (u : String) : Bool :=
  lastColonIndex u > schemeIndex u + 2

/-! ## Network profile data (models/settings/config.go) -/

/-- Go struct NetworkInfo: one network profile, all fields strings. -/
structure NetworkInfo where
  name : String
  algodURL : String
  algodPort : String
  algodToken : String
  indexerURL : String
  indexerPort : String
  indexerToken : String
deriving DecidableEq, Repr

/-- The Go zero value NetworkInfo\x7b\x7d. -/
def NetworkInfo.empty : NetworkInfo :=
  ⟨"", "", "", "", "", "", ""⟩

/-! ## Endpoint normalization (createAlgodClient / createIndexerClient)

The URL computation inlined in createAlgodClient of
models/settings/networks_clients.go, factored out verbatim. -/

/-- The base URL createAlgodClient passes to algod.MakeClient. -/
def algodBaseURL (ni : NetworkInfo) : String :=
  let base := goTrimSpace ni.algodURL
  if hasScheme base then
    let base := trimSlash base
    if ni.algodPort ≠ "" ∧ ¬ hasExplicitPort base = true ∧
        ni.algodPort ≠ "443" ∧ ni.algodPort ≠ "80" then
      base ++ ":" ++ ni.algodPort
    else
      base
  else
    trimSlash base ++ ":" ++ ni.algodPort

/-- The base URL createIndexerClient passes to indexer.MakeClient
(none when the indexer URL is empty: the Go function returns an
error before computing a URL). -/
def indexerBaseURL (ni : NetworkInfo) : Option String :=
  if ni.indexerURL = "" then
    none
  else
    let base := goTrimSpace ni.indexerURL
    if hasScheme base then
      let base := trimSlash base
      if ni.indexerPort ≠ "" ∧ ¬ hasExplicitPort base = true ∧
          ni.indexerPort ≠ "443" ∧ ni.indexerPort ≠ "80" then
        some (base ++ ":" ++ ni.indexerPort)
      else
        some base
    else
      some (trimSlash base ++ ":" ++ ni.indexerPort)

/-- The normalization rule exactly as the specification words it:
strip surrounding whitespace and trailing slashes; if the URL contains
a scheme and the configured port is 443 or 80, or the URL already embeds
an explicit port, append no port; otherwise append the configured port. -/
def specNormalize (url port : String) : String :=
  let base := trimSlash (goTrimSpace url)
  if hasScheme (goTrimSpace url) ∧ (port = "443" ∨ port = "80" ∨ hasExplicitPort base = true) then
    base
  else
    base ++ ":" ++ port

/-- The specification rule amended on one point: with a scheme-bearing
URL and an empty configured port, no port is appended. -/
def specNormalizeAmended (url port : String) : String :=
  let base := trimSlash (goTrimSpace url)
  if hasScheme (goTrimSpace url) ∧
      (port = "" ∨ port = "443" ∨ port = "80" ∨ hasExplicitPort base = true) then
    base
  else
    base ++ ":" ++ port

/-! ## C1 theorems -/

/-- Profile used in the spec's first normalization scenario. -/
def exampleSchemeProfile : NetworkInfo :=
  ⟨"example", "https://example.com/", "443", "", "", "", ""⟩

/-- Profile used in the spec's second normalization scenario. -/
def exampleLocalProfile : NetworkInfo :=
  ⟨"local", "localhost", "4001", "", "", "", ""⟩

/-- Profile with a scheme-bearing URL and an empty configured port. -/
def emptyPortProfile : NetworkInfo :=
  ⟨"edge", "http://localhost", "", "", "", "", ""⟩

/-- Profile with indexer endpoints configured. -/
def indexerProfile : NetworkInfo :=
  ⟨"testnet", "https://testnet-api.algonode.cloud/", "443", "",
   "https://testnet-idx.algonode.cloud/", "443", ""⟩

/-- C1 counterexample: the claim says that whenever the no-append
condition (scheme present and port 443/80, or embedded port) fails, the
configured port is appended.  For the profile with URL "http://localhost"
and empty port, the code appends nothing while the claimed rule would
produce "http://localhost:". -/
theorem c1_normalization_counterexample :
    algodBaseURL emptyPortProfile = "http://localhost" ∧
    specNormalize emptyPortProfile.algodURL emptyPortProfile.algodPort =
      "http://localhost:" ∧
    algodBaseURL emptyPortProfile ≠
      specNormalize emptyPortProfile.algodURL emptyPortProfile.algodPort := by
  refine ⟨by decide, by decide, by decide⟩

/-- C1 (amended): client construction normalizes the endpoint URL by
stripping surrounding whitespace and trailing slashes; with a scheme and a
port of 443 or 80, with an already embedded port, or with a scheme and an
empty configured port, no port is appended; otherwise the configured port
is appended.  The same rule governs the primary (algod) and secondary
(indexer) endpoints, and the two scenario profiles normalize as stated. -/
theorem c1_endpoint_normalization :
    (∀ ni : NetworkInfo,
      algodBaseURL ni = specNormalizeAmended ni.algodURL ni.algodPort) ∧
    (∀ ni : NetworkInfo, ni.indexerURL ≠ "" →
      indexerBaseURL ni = some (specNormalizeAmended ni.indexerURL ni.indexerPort)) ∧
    algodBaseURL exampleSchemeProfile = "https://example.com" ∧
    algodBaseURL exampleLocalProfile = "localhost:4001" := by
  refine ⟨?_, ?_, by decide, by decide⟩
  · intro ni
    unfold algodBaseURL specNormalizeAmended
    by_cases h1 : hasScheme (goTrimSpace ni.algodURL) = true <;>
    by_cases h2 : ni.algodPort = "" <;>
    by_cases h3 : ni.algodPort = "443" <;>
    by_cases h4 : ni.algodPort = "80" <;>
    by_cases h5 : hasExplicitPort (trimSlash (goTrimSpace ni.algodURL)) = true <;>
    simp_all
  · intro ni hne
    unfold indexerBaseURL specNormalizeAmended
    by_cases h1 : hasScheme (goTrimSpace ni.indexerURL) = true <;>
    by_cases h2 : ni.indexerPort = "" <;>
    by_cases h3 : ni.indexerPort = "443" <;>
    by_cases h4 : ni.indexerPort = "80" <;>
    by_cases h5 : hasExplicitPort (trimSlash (goTrimSpace ni.indexerURL)) = true <;>
    simp_all

/-- Closed instance of c1_endpoint_normalization at a profile with a
configured secondary endpoint. -/
theorem c1_endpoint_normalization_witness :
    indexerBaseURL indexerProfile =
      some (specNormalizeAmended "https://testnet-idx.algonode.cloud/" "443") :=
  c1_endpoint_normalization.2.1 indexerProfile (by decide)

/-! ## Profile-form field cycling (getNextField / getPrevField) -/

/-- The fixed field order used by both getNextField and getPrevField. -/
def formFields : List String :=
  ["name", "algod_url", "algod_port", "algod_token",
   "indexer_url", "indexer_port", "indexer_token"]

/-- Go method getNextField: scan the field list for the current field;
return its successor, wrapping from the last entry to the first; an
unrecognized field maps to the first entry. -/
def getNextField (current : String) : String :=
  match formFields.findIdx? (fun f => f = current) with
  | some i =>
    if i < formFields.length - 1 then formFields.getD (i + 1) ""
    else formFields.getD 0 ""
  | none => formFields.getD 0 ""

/-- Go method getPrevField: scan the field list for the current field;
return its predecessor, wrapping from the first entry to the last; an
unrecognized field maps to the last entry. -/
def getPrevField (current : String) : String :=
  match formFields.findIdx? (fun f => f = current) with
  | some i =>
    if 0 < i then formFields.getD (i - 1) ""
    else formFields.getLastD ""
  | none => formFields.getLastD ""

/-! ## C9 theorem -/

/-- C9: from each of the seven form fields, seven applications of
getNextField return the starting field, and getPrevField undoes
getNextField. -/
theorem c9_field_cycling :
    ∀ f ∈ formFields, getNextField^[7] f = f ∧ getPrevField (getNextField f) = f := by
  decide

/-- Closed instance of c9_field_cycling at the name field. -/
theorem c9_field_cycling_witness :
    getNextField^[7] "name" = "name" ∧ getPrevField (getNextField "name") = "name" :=
  c9_field_cycling "name" (by decide)

/-! ## Configuration persistence (models/settings/config.go) -/

/-- Go struct Config. -/
structure Config where
  network : String
  walletAddr : String
  customNetworks : List NetworkInfo
deriving DecidableEq, Repr

/-- A parsed configuration before nil-normalization: json.Unmarshal
leaves an absent custom_networks field as a nil slice, modelled as none. -/
structure RawConfig where
  network : String
  walletAddr : String
  customNetworks : Option (List NetworkInfo)
deriving DecidableEq, Repr

/-- The default configuration LoadConfig synthesizes on a read error. -/
def defaultConfig : Config := ⟨"testnet", "", []⟩

/-- The Go zero value Config\x7b\x7d returned on an unmarshal error
(its nil custom-network slice is modelled as the empty list). -/
def zeroConfig : Config := ⟨"", "", []⟩

/-- Shallow embedding of LoadConfig: the outcome of reading the
configuration file and the JSON parser are passed explicitly.  The Go
code inspects only whether os.ReadFile returned an error, never which
error, so any read failure takes the default branch. -/
def loadConfig (readOutcome : Except String String)
    (parse : String → Option RawConfig) : Config × Option String :=
  match readOutcome with
  | .error _ => (defaultConfig, none)
  | .ok buff =>
    match parse buff with
    | none => (zeroConfig, some "json unmarshal failed")
    | some raw => (⟨raw.network, raw.walletAddr, raw.customNetworks.getD []⟩, none)

/-! ## C10 theorem -/

/-- C10: every read failure, no matter its reason, yields the default
configuration (network "testnet", empty wallet address, empty
custom-network list) with no error; an error is returned only when the
read succeeds and parsing fails, in which case the zero configuration is
returned; a successful parse returns no error. -/
theorem c10_load_config_error_masking :
    (∀ (e : String) (parse : String → Option RawConfig),
      loadConfig (.error e) parse = (defaultConfig, none)) ∧
    (∀ (buff : String) (parse : String → Option RawConfig),
      parse buff = none →
      loadConfig (.ok buff) parse = (zeroConfig, some "json unmarshal failed")) ∧
    (∀ (buff : String) (parse : String → Option RawConfig) (raw : RawConfig),
      parse buff = some raw →
      (loadConfig (.ok buff) parse).2 = none) ∧
    defaultConfig = ⟨"testnet", "", []⟩ := by
  refine ⟨fun e parse => rfl, ?_, ?_, rfl⟩
  · intro buff parse h
    simp [loadConfig, h]
  · intro buff parse raw h
    simp [loadConfig, h]

/-- Closed instances of c10_load_config_error_masking: an unreadable
existing file is masked as the default configuration, and unparsable
contents surface an error with the zero configuration. -/
theorem c10_load_config_error_masking_witness :
    loadConfig (.error "permission denied") (fun _ => none) = (defaultConfig, none) ∧
    loadConfig (.ok "junk") (fun _ => none) = (zeroConfig, some "json unmarshal failed") :=
  ⟨c10_load_config_error_masking.1 "permission denied" (fun _ => none),
   c10_load_config_error_masking.2.1 "junk" (fun _ => none) rfl⟩

/-! ## Network session manager (NetworkManager)

The SDK clients are opaque handles wrapping the computed base URL and
token; network round trips and SDK constructor failures are resolved by
an explicit environment record NetEnv. -/

/-- Handle produced by algod.MakeClient. -/
structure AlgodClient where
  base : String
  token : String
deriving DecidableEq, Repr

/-- Handle produced by indexer.MakeClient. -/
structure IndexerClient where
  base : String
  token : String
deriving DecidableEq, Repr

/-- External-world outcomes: whether each SDK constructor fails, the
result of algod Status and GetGenesis calls, whether the indexer
SearchForApplications probe succeeds, and the clock. -/
structure NetEnv where
  algodMakeFails : String → String → Bool
  algodStatus : AlgodClient → Option Nat
  algodGenesis : AlgodClient → Option String
  indexerMakeFails : String → String → Bool
  indexerSearchOk : IndexerClient → Bool
  now : Nat

/-- Go func createAlgodClient: build the handle from the normalized base
URL and the token, or fail as algod.MakeClient would. -/
def createAlgodClient (env : NetEnv) (ni : NetworkInfo) : Except String AlgodClient :=
  let base := algodBaseURL ni
  if env.algodMakeFails base ni.algodToken then .error "make algod client failed"
  else .ok ⟨base, ni.algodToken⟩

/-- Go func createIndexerClient: error when the indexer URL is empty,
otherwise build the handle from the normalized base URL and token. -/
def createIndexerClient (env : NetEnv) (ni : NetworkInfo) : Except String IndexerClient :=
  match indexerBaseURL ni with
  | none => .error "indexer URL not provided"
  | some base =>
    if env.indexerMakeFails base ni.indexerToken then .error "make indexer client failed"
    else .ok ⟨base, ni.indexerToken⟩

/-- Go struct NetworkManager. -/
structure NetworkManager where
  algodClient : Option AlgodClient
  indexerClient : Option IndexerClient
  currentNetwork : NetworkInfo
  connected : Bool
deriving DecidableEq, Repr

/-- Go func NewNetworkManager: connected false, everything else zero. -/
def newNetworkManager : NetworkManager :=
  ⟨none, none, NetworkInfo.empty, false⟩

/-- Go method TestNetworkConnection.  The receiver is never written, so
each return pairs the unchanged manager with the computed error. -/
def testNetworkConnection (env : NetEnv) (nm : NetworkManager) (ni : NetworkInfo) :
    NetworkManager × Option String :=
  match createAlgodClient env ni with
  | .error e => (nm, some ("failed to create algod client: " ++ e))
  | .ok c =>
    match env.algodStatus c with
    | none => (nm, some "algod connection test failed")
    | some _ =>
      if ni.indexerURL ≠ "" then
        match createIndexerClient env ni with
        | .error e => (nm, some ("failed to create indexer client: " ++ e))
        | .ok ic =>
          if env.indexerSearchOk ic then (nm, none)
          else (nm, some "indexer connection test failed")
      else (nm, none)

/-- Go method ConnectToNetwork: verify the primary; on success commit
both handles, the profile, and the connected flag.  A failing secondary
is demoted to a warning and a nil handle. -/
def connectToNetwork (env : NetEnv) (nm : NetworkManager) (ni : NetworkInfo) :
    NetworkManager × Option String :=
  match createAlgodClient env ni with
  | .error e => (nm, some ("failed to connect to algod: " ++ e))
  | .ok c =>
    match env.algodStatus c with
    | none => (nm, some "failed to get network status")
    | some _ =>
      let indexerClient : Option IndexerClient :=
        if ni.indexerURL ≠ "" then
          match createIndexerClient env ni with
          | .error _ => none
          | .ok ic => if env.indexerSearchOk ic then some ic else none
        else none
      (⟨some c, indexerClient, ni, true⟩, none)

/-- Go struct NetworkStatus (Timestamp modelled as a Nat clock value). -/
structure NetworkStatus where
  networkName : String
  algodURL : String
  indexerURL : String
  connected : Bool
  lastRound : Nat
  genesisID : String
  genesisHash : String
  indexerHealthy : Bool
  timestamp : Nat
deriving DecidableEq, Repr

/-- Go method GetNetworkStatus: error when disconnected or without a
primary handle; otherwise query status and genesis, probe the secondary
when present, and assemble the snapshot.  The receiver is never
written. -/
def getNetworkStatus (env : NetEnv) (nm : NetworkManager) :
    NetworkManager × Except String NetworkStatus :=
  match nm.connected, nm.algodClient with
  | true, some c =>
    (match env.algodStatus c with
     | none => (nm, .error "failed to get network status")
     | some round =>
       match env.algodGenesis c with
       | none => (nm, .error "failed to get genesis info")
       | some g =>
         let indexerHealthy :=
           match nm.indexerClient with
           | some ic => env.indexerSearchOk ic
           | none => false
         let genesisID := if 0 < g.length then "genesis-available" else "unknown"
         let genesisHash := if 0 < g.length then nm.currentNetwork.name else "unknown"
         (nm, .ok ⟨nm.currentNetwork.name, nm.currentNetwork.algodURL,
                   nm.currentNetwork.indexerURL, true, round,
                   genesisID, genesisHash, indexerHealthy, env.now⟩))
  | _, _ => (nm, .error "not connected to any network")

/-- Go method IsConnected. -/
def isConnected (nm : NetworkManager) : Bool :=
  nm.connected && nm.algodClient.isSome

/-- Go method Disconnect: clear both handles, the flag, and the profile. -/
def disconnect (_nm : NetworkManager) : NetworkManager :=
  ⟨none, none, NetworkInfo.empty, false⟩

/-- The session invariant: a connected manager holds a primary handle. -/
def NetworkManager.primaryInv (nm : NetworkManager) : Prop :=
  nm.connected = true → nm.algodClient.isSome

/-- TestNetworkConnection returns the manager it received. -/
theorem testNetworkConnection_fst (env : NetEnv) (nm : NetworkManager) (ni : NetworkInfo) :
    (testNetworkConnection env nm ni).1 = nm := by
  unfold testNetworkConnection
  repeat' split
  all_goals rfl

/-- GetNetworkStatus returns the manager it received. -/
theorem getNetworkStatus_fst (env : NetEnv) (nm : NetworkManager) :
    (getNetworkStatus env nm).1 = nm := by
  unfold getNetworkStatus
  repeat' split
  all_goals rfl

/-- An environment whose primary endpoint is healthy and whose secondary
probe always fails. -/
def primaryOnlyEnv : NetEnv :=
  ⟨fun _ _ => false, fun _ => some 1, fun _ => some "genesis", fun _ _ => false,
   fun _ => false, 0⟩

/-! ## C7 and C8 theorems -/

/-- C7: connected implies a primary handle, in the initial manager and
after every operation; and a connect against a profile with no secondary
endpoint leaves the manager connected with a null secondary handle. -/
theorem c7_connected_implies_primary :
    newNetworkManager.primaryInv ∧
    (∀ (env : NetEnv) (nm : NetworkManager) (ni : NetworkInfo), nm.primaryInv →
      ((testNetworkConnection env nm ni).1.primaryInv ∧
       (connectToNetwork env nm ni).1.primaryInv ∧
       (getNetworkStatus env nm).1.primaryInv ∧
       (disconnect nm).primaryInv)) ∧
    ((connectToNetwork primaryOnlyEnv newNetworkManager exampleLocalProfile).1.connected = true ∧
     (connectToNetwork primaryOnlyEnv newNetworkManager exampleLocalProfile).1.indexerClient = none) := by
  refine ⟨?_, ?_, by decide, by decide⟩
  · intro h
    simp [newNetworkManager] at h
  intro env nm ni h
  refine ⟨?_, ?_, ?_, ?_⟩
  · rw [testNetworkConnection_fst]; exact h
  · unfold connectToNetwork
    repeat' split
    all_goals first
      | exact h
      | (intro _; rfl)
  · rw [getNetworkStatus_fst]; exact h
  · intro h2
    simp [disconnect] at h2

/-- Closed instance of c7_connected_implies_primary for the initial
manager. -/
theorem c7_connected_implies_primary_witness :
    (testNetworkConnection primaryOnlyEnv newNetworkManager exampleLocalProfile).1.primaryInv ∧
    (connectToNetwork primaryOnlyEnv newNetworkManager exampleLocalProfile).1.primaryInv ∧
    (getNetworkStatus primaryOnlyEnv newNetworkManager).1.primaryInv ∧
    (disconnect newNetworkManager).primaryInv :=
  c7_connected_implies_primary.2.1 primaryOnlyEnv newNetworkManager exampleLocalProfile
    (by intro h; simp [newNetworkManager] at h)

/-- C8: TestNetworkConnection leaves every field of the manager
untouched, and a second call with the same profile under the same
environment returns the same outcome. -/
theorem c8_test_connection_frame :
    ∀ (env : NetEnv) (nm : NetworkManager) (ni : NetworkInfo),
      (testNetworkConnection env nm ni).1 = nm ∧
      ((testNetworkConnection env nm ni).1.algodClient = nm.algodClient ∧
       (testNetworkConnection env nm ni).1.indexerClient = nm.indexerClient ∧
       (testNetworkConnection env nm ni).1.currentNetwork = nm.currentNetwork ∧
       (testNetworkConnection env nm ni).1.connected = nm.connected) ∧
      (testNetworkConnection env (testNetworkConnection env nm ni).1 ni).2 =
        (testNetworkConnection env nm ni).2 := by
  intro env nm ni
  have h := testNetworkConnection_fst env nm ni
  exact ⟨h, ⟨by rw [h], by rw [h], by rw [h], by rw [h]⟩, by rw [h]⟩

/-! ## Settings screen state and the profile-save flow

The networkInfos Go map is an association list with map semantics; the
configuration file is an Option Config holding the parsed on-disk state
(none while the file is absent). -/

/-- Go map assignment m[k] = v: replace the binding of an existing key,
otherwise add the binding. -/
def mapInsert (k : String) (v : NetworkInfo) :
    List (String × NetworkInfo) → List (String × NetworkInfo)
  | [] => [(k, v)]
  | (k2, v2) :: rest =>
    if k2 = k then (k, v) :: rest else (k2, v2) :: mapInsert k v rest

/-- Go map lookup m[k]. -/
def mapFind (k : String) : List (String × NetworkInfo) → Option NetworkInfo
  | [] => none
  | (k2, v2) :: rest => if k2 = k then some v2 else mapFind k rest

/-- Go func ValidateNetworkConfig: the four structural checks, in source
order, each with its message. -/
def validateNetworkConfig (ni : NetworkInfo) : Option String :=
  if ni.name = "" then some "network name cannot be empty"
  else if ni.algodURL = "" then some "algod URL cannot be empty"
  else if ni.algodPort = "" then some "algod port cannot be empty"
  else if ni.indexerURL ≠ "" ∧ ni.indexerPort = "" then
    some "indexer port required when indexer URL is provided"
  else none

/-- The upsert loop of saveNetworkConfig over config.CustomNetworks:
replace the first entry with a matching name, else append. -/
def upsertByName : List NetworkInfo → NetworkInfo → List NetworkInfo
  | [], v => [v]
  | n :: rest, v => if n.name = v.name then v :: rest else n :: upsertByName rest v

/-- First custom network with the given name (json round trip reads the
list in order, and the merge loops scan it front to back). -/
def findCustomNetwork (nets : List NetworkInfo) (p : String) : Option NetworkInfo :=
  nets.find? (fun n => n.name = p)

/-- Environment for the settings layer: network outcomes plus whether
SaveConfig fails (home-directory, mkdir, marshal or write error). -/
structure SysEnv where
  net : NetEnv
  saveFails : Bool

/-- Go func SaveConfig against the modelled file store. -/
def saveConfigFS (env : SysEnv) (fs : Option Config) (cfg : Config) :
    Option Config × Option String :=
  if env.saveFails then (fs, some "failed to write config file")
  else (some cfg, none)

/-- Go func LoadConfig against the modelled file store: an absent file
yields the default configuration; a present file was written by
SaveConfig, hence parses to the stored configuration. -/
def loadConfigFS (fs : Option Config) : Config × Option String :=
  match fs with
  | none => (defaultConfig, none)
  | some cfg => (cfg, none)

/-- Go struct SettingsModel (rendering-only fields omitted; err is never
read by the update paths). -/
structure SettingsModel where
  config : Config
  networks : List String
  networkInfos : List (String × NetworkInfo)
  cursor : Nat
  editingAddr : Bool
  inputBuffer : String
  editingNetwork : Bool
  editField : String
  networkBuffer : NetworkInfo
  networkManager : NetworkManager
  connectionStatus : String
  showStatus : Bool
deriving DecidableEq, Repr

/-- Go method saveNetworkConfig, with the configuration file threaded
through explicitly: validate, test, commit to the registry, detect
new-vs-existing on the pre-insertion name list, upsert the custom list,
update list and cursor, persist, and reload-and-remerge. -/
def saveNetworkConfig (env : SysEnv) (m : SettingsModel) (fs : Option Config) :
    SettingsModel × Option Config :=
  match validateNetworkConfig m.networkBuffer with
  | some e =>
    ({ m with connectionStatus := "Validation failed: " ++ e, showStatus := true }, fs)
  | none =>
    match (testNetworkConnection env.net m.networkManager m.networkBuffer).2 with
    | some e =>
      ({ m with connectionStatus := "Connection test failed: " ++ e, showStatus := true }, fs)
    | none =>
      let infos := mapInsert m.networkBuffer.name m.networkBuffer m.networkInfos
      let found := m.networks.findIdx? (fun n => n = m.networkBuffer.name)
      let custom := upsertByName m.config.customNetworks m.networkBuffer
      let cfg := { m.config with customNetworks := custom }
      let networks :=
        match found with
        | some _ => m.networks
        | none => m.networks ++ [m.networkBuffer.name]
      let cursor :=
        match found with
        | some i => i
        | none => networks.length - 1
      let m2 := { m with networkInfos := infos, config := cfg,
                         networks := networks, cursor := cursor }
      match saveConfigFS env fs cfg with
      | (fs2, some e) =>
        ({ m2 with connectionStatus := "Failed to save config: " ++ e,
                   showStatus := true }, fs2)
      | (fs2, none) =>
        let reloaded := (loadConfigFS fs2).1
        let remerged := reloaded.customNetworks.foldl
          (fun acc n => mapInsert n.name n acc) m2.networkInfos
        let m3 := { m2 with config := reloaded, networkInfos := remerged }
        ({ m3 with connectionStatus :=
                     "Network " ++ m.networkBuffer.name ++ " saved successfully",
                   showStatus := true }, fs2)

/-! ## Registry and persistence lemmas -/

/-- Inserting a key finds that key. -/
theorem mapFind_mapInsert_self (k : String) (v : NetworkInfo)
    (l : List (String × NetworkInfo)) : mapFind k (mapInsert k v l) = some v := by
  induction l with
  | nil => simp [mapInsert, mapFind]
  | cons hd tl ih =>
    obtain ⟨k2, v2⟩ := hd
    by_cases h : k2 = k <;> simp [mapInsert, mapFind, h, ih]

/-- Inserting a different key leaves a lookup unchanged. -/
theorem mapFind_mapInsert_ne (k k2 : String) (v : NetworkInfo)
    (l : List (String × NetworkInfo)) (h : k2 ≠ k) :
    mapFind k (mapInsert k2 v l) = mapFind k l := by
  induction l with
  | nil => simp [mapInsert, mapFind, h]
  | cons hd tl ih =>
    obtain ⟨k3, v3⟩ := hd
    by_cases h3 : k3 = k2 <;> by_cases h4 : k3 = k <;>
      simp_all [mapInsert, mapFind]

/-- Re-merging a custom-network list whose entries named p all carry the
value v preserves a lookup of p that already yields v. -/
theorem foldl_mapInsert_find (p : String) (v : NetworkInfo) :
    ∀ (l : List NetworkInfo) (acc : List (String × NetworkInfo)),
      (∀ n ∈ l, n.name = p → n = v) → mapFind p acc = some v →
      mapFind p (l.foldl (fun acc n => mapInsert n.name n acc) acc) = some v := by
  intro l
  induction l with
  | nil => intro acc _ hacc; simpa using hacc
  | cons hd tl ih =>
    intro acc hl hacc
    simp only [List.foldl_cons]
    by_cases h : hd.name = p
    · have hv : hd = v := hl hd (List.mem_cons_self hd tl) h
      subst hv
      refine ih _ (fun n hn hp => hl n (List.mem_cons_of_mem hd hn) hp) ?_
      rw [h]
      exact mapFind_mapInsert_self p hd acc
    · refine ih _ (fun n hn hp => hl n (List.mem_cons_of_mem hd hn) hp) ?_
      rw [mapFind_mapInsert_ne p hd.name hd acc h]
      exact hacc

/-- After an upsert into a list with pairwise-distinct names, every entry
carrying the upserted name is the upserted value. -/
theorem upsert_entries (v : NetworkInfo) :
    ∀ nets : List NetworkInfo,
      (nets.map NetworkInfo.name).Nodup →
      ∀ n ∈ upsertByName nets v, n.name = v.name → n = v := by
  intro nets
  induction nets with
  | nil => intro _ n hn _; simpa [upsertByName] using hn
  | cons hd tl ih =>
    intro hnd n hn hname
    rw [List.map_cons, List.nodup_cons] at hnd
    obtain ⟨hnotin, hnd2⟩ := hnd
    by_cases h : hd.name = v.name
    · simp only [upsertByName, h, if_true] at hn
      rcases List.mem_cons.mp hn with rfl | hmem
      · rfl
      · exact absurd (List.mem_map.mpr ⟨n, hmem, hname.trans h.symm⟩) hnotin
    · simp only [upsertByName, h, if_false] at hn
      rcases List.mem_cons.mp hn with rfl | hmem
      · exact absurd hname h
      · exact ih hnd2 n hmem hname

/-- The first entry with the upserted name is the upserted value. -/
theorem findCustomNetwork_upsert (v : NetworkInfo) :
    ∀ nets : List NetworkInfo,
      findCustomNetwork (upsertByName nets v) v.name = some v := by
  intro nets
  induction nets with
  | nil => simp [upsertByName, findCustomNetwork]
  | cons hd tl ih =>
    by_cases h : hd.name = v.name <;>
      simp_all [upsertByName, findCustomNetwork, List.find?]

/-- A found name index implies membership. -/
theorem findIdx?_name_some_mem (l : List String) (p : String) (i : Nat)
    (h : l.findIdx? (fun n => n = p) = some i) : p ∈ l := by
  by_contra hmem
  have hnone : l.findIdx? (fun n => n = p) = none := by
    rw [List.findIdx?_eq_none_iff]
    intro x hx
    simp only [decide_eq_false_iff_not]
    rintro rfl
    exact hmem hx
  rw [hnone] at h
  exact Option.noConfusion h

/-- An absent name index implies non-membership. -/
theorem findIdx?_name_none_not_mem (l : List String) (p : String)
    (h : l.findIdx? (fun n => n = p) = none) : p ∉ l := by
  intro hmem
  rw [List.findIdx?_eq_none_iff] at h
  have := h p hmem
  simp at this

/-! ## C2, C5 and C6 theorems -/

/-- C2: after a successful profile save (validation, connection test and
persist all succeed), the registry maps the buffer name to the buffer,
the ordered name list holds it exactly once (appended with the cursor on
the new last entry when new by pre-insertion membership, unchanged with
the cursor on the existing index otherwise), and reloading the stored
configuration yields the same mapping.  The two Nodup hypotheses are the
registry well-formedness the flow maintains: names are unique in the
ordered list and in the persisted custom-network list. -/
theorem c2_successful_save :
    ∀ (env : SysEnv) (m : SettingsModel) (fs : Option Config),
      validateNetworkConfig m.networkBuffer = none →
      (testNetworkConnection env.net m.networkManager m.networkBuffer).2 = none →
      env.saveFails = false →
      m.networks.Nodup →
      (m.config.customNetworks.map NetworkInfo.name).Nodup →
      mapFind m.networkBuffer.name (saveNetworkConfig env m fs).1.networkInfos =
        some m.networkBuffer ∧
      (saveNetworkConfig env m fs).1.networks.count m.networkBuffer.name = 1 ∧
      (match m.networks.findIdx? (fun n => n = m.networkBuffer.name) with
       | some i =>
         (saveNetworkConfig env m fs).1.networks = m.networks ∧
         (saveNetworkConfig env m fs).1.cursor = i
       | none =>
         (saveNetworkConfig env m fs).1.networks = m.networks ++ [m.networkBuffer.name] ∧
         (saveNetworkConfig env m fs).1.cursor = m.networks.length) ∧
      findCustomNetwork (loadConfigFS (saveNetworkConfig env m fs).2).1.customNetworks
        m.networkBuffer.name = some m.networkBuffer := by
  intro env m fs hv ht hs hnd hndc
  rcases hf : m.networks.findIdx? (fun n => n = m.networkBuffer.name) with _ | i <;>
    simp only [saveNetworkConfig, hv, ht, saveConfigFS, hs, loadConfigFS, hf,
      if_false, Bool.false_eq_true, reduceIte]
  · refine ⟨?_, ?_, by simp [List.length_append], ?_⟩
    · exact foldl_mapInsert_find _ _ _ _
        (upsert_entries m.networkBuffer m.config.customNetworks hndc)
        (mapFind_mapInsert_self _ _ _)
    · have hnm := findIdx?_name_none_not_mem _ _ hf
      rw [List.count_append]
      rw [List.count_eq_zero_of_not_mem hnm]
      simp
    · exact findCustomNetwork_upsert m.networkBuffer m.config.customNetworks
  · refine ⟨?_, ?_, by simp, ?_⟩
    · exact foldl_mapInsert_find _ _ _ _
        (upsert_entries m.networkBuffer m.config.customNetworks hndc)
        (mapFind_mapInsert_self _ _ _)
    · have hm := findIdx?_name_some_mem _ _ _ hf
      exact List.count_eq_one_of_mem hnd hm
    · exact findCustomNetwork_upsert m.networkBuffer m.config.customNetworks

/-- C5: a buffered profile that fails any of the four structural checks
aborts the save with a validation status message and leaves the registry,
the ordered name list, the cursor, the custom-network list and the stored
file untouched. -/
theorem c5_validation_failure_frame :
    ∀ (env : SysEnv) (m : SettingsModel) (fs : Option Config),
      (m.networkBuffer.name = "" ∨ m.networkBuffer.algodURL = "" ∨
       m.networkBuffer.algodPort = "" ∨
       (m.networkBuffer.indexerURL ≠ "" ∧ m.networkBuffer.indexerPort = "")) →
      (validateNetworkConfig m.networkBuffer).isSome = true ∧
      (saveNetworkConfig env m fs).1.networkInfos = m.networkInfos ∧
      (saveNetworkConfig env m fs).1.networks = m.networks ∧
      (saveNetworkConfig env m fs).1.cursor = m.cursor ∧
      (saveNetworkConfig env m fs).1.config.customNetworks = m.config.customNetworks ∧
      (saveNetworkConfig env m fs).2 = fs ∧
      (saveNetworkConfig env m fs).1.showStatus = true ∧
      ∃ e, (saveNetworkConfig env m fs).1.connectionStatus = "Validation failed: " ++ e := by
  intro env m fs h
  have hv : ∃ e, validateNetworkConfig m.networkBuffer = some e := by
    unfold validateNetworkConfig
    rcases h with h | h | h | ⟨h1, h2⟩ <;> split_ifs <;> simp_all
  obtain ⟨e, he⟩ := hv
  refine ⟨by simp [he], ?_, ?_, ?_, ?_, ?_, ?_, ⟨e, ?_⟩⟩ <;>
    simp [saveNetworkConfig, he]

/-- C6: when validation and the connection test succeed but persisting
fails, the failure is reported as a status message while the in-memory
commit is kept (registry, name list, custom list and cursor all hold the
profile) and the stored file is unchanged, so memory and disk diverge. -/
theorem c6_persist_failure_keeps_commit :
    ∀ (env : SysEnv) (m : SettingsModel) (fs : Option Config),
      validateNetworkConfig m.networkBuffer = none →
      (testNetworkConnection env.net m.networkManager m.networkBuffer).2 = none →
      env.saveFails = true →
      (saveNetworkConfig env m fs).1.connectionStatus =
        "Failed to save config: failed to write config file" ∧
      (saveNetworkConfig env m fs).1.showStatus = true ∧
      mapFind m.networkBuffer.name (saveNetworkConfig env m fs).1.networkInfos =
        some m.networkBuffer ∧
      m.networkBuffer.name ∈ (saveNetworkConfig env m fs).1.networks ∧
      findCustomNetwork (saveNetworkConfig env m fs).1.config.customNetworks
        m.networkBuffer.name = some m.networkBuffer ∧
      (match m.networks.findIdx? (fun n => n = m.networkBuffer.name) with
       | some i => (saveNetworkConfig env m fs).1.cursor = i
       | none => (saveNetworkConfig env m fs).1.cursor = m.networks.length) ∧
      (saveNetworkConfig env m fs).2 = fs := by
  intro env m fs hv ht hs
  rcases hf : m.networks.findIdx? (fun n => n = m.networkBuffer.name) with _ | i <;>
    simp only [saveNetworkConfig, hv, ht, saveConfigFS, hs, loadConfigFS, hf, reduceIte] <;>
    refine ⟨?_, ?_, ?_, ?_, ?_, ?_, ?_⟩ <;>
    first
      | rfl
      | trivial
      | exact mapFind_mapInsert_self _ _ _
      | exact findCustomNetwork_upsert m.networkBuffer m.config.customNetworks
      | exact findIdx?_name_some_mem _ _ _ hf
      | simp

/-! ## Concrete save scenarios (witnesses) -/

/-- The spec's scenario profile custom1. -/
def customProfile : NetworkInfo := ⟨"custom1", "http://localhost", "4001", "", "", "", ""⟩

/-- A settings screen mid-way through creating the custom1 profile. -/
def demoModel : SettingsModel :=
  ⟨⟨"testnet", "", []⟩, ["localnet", "testnet", "mainnet"], [], 1, false, "", true,
   "name", customProfile, newNetworkManager, "", false⟩

/-- The same screen with an all-empty buffer (fails validation). -/
def invalidModel : SettingsModel := { demoModel with networkBuffer := NetworkInfo.empty }

/-- Healthy network, persistence succeeds. -/
def demoEnv : SysEnv := ⟨primaryOnlyEnv, false⟩

/-- Healthy network, persistence fails. -/
def failSaveEnv : SysEnv := ⟨primaryOnlyEnv, true⟩

/-- Closed instance of c2_successful_save for the custom1 scenario. -/
theorem c2_successful_save_witness :
    mapFind demoModel.networkBuffer.name
        (saveNetworkConfig demoEnv demoModel none).1.networkInfos =
      some demoModel.networkBuffer ∧
    (saveNetworkConfig demoEnv demoModel none).1.networks.count
        demoModel.networkBuffer.name = 1 ∧
    (match demoModel.networks.findIdx? (fun n => n = demoModel.networkBuffer.name) with
     | some i =>
       (saveNetworkConfig demoEnv demoModel none).1.networks = demoModel.networks ∧
       (saveNetworkConfig demoEnv demoModel none).1.cursor = i
     | none =>
       (saveNetworkConfig demoEnv demoModel none).1.networks =
         demoModel.networks ++ [demoModel.networkBuffer.name] ∧
       (saveNetworkConfig demoEnv demoModel none).1.cursor = demoModel.networks.length) ∧
    findCustomNetwork
        (loadConfigFS (saveNetworkConfig demoEnv demoModel none).2).1.customNetworks
        demoModel.networkBuffer.name = some demoModel.networkBuffer :=
  c2_successful_save demoEnv demoModel none (by decide) (by decide) rfl
    (by decide) (by decide)

/-- Closed instance of c5_validation_failure_frame for an empty buffer. -/
theorem c5_validation_failure_frame_witness :
    (validateNetworkConfig invalidModel.networkBuffer).isSome = true ∧
    (saveNetworkConfig demoEnv invalidModel none).1.networkInfos = invalidModel.networkInfos ∧
    (saveNetworkConfig demoEnv invalidModel none).1.networks = invalidModel.networks ∧
    (saveNetworkConfig demoEnv invalidModel none).1.cursor = invalidModel.cursor ∧
    (saveNetworkConfig demoEnv invalidModel none).1.config.customNetworks =
      invalidModel.config.customNetworks ∧
    (saveNetworkConfig demoEnv invalidModel none).2 = none ∧
    (saveNetworkConfig demoEnv invalidModel none).1.showStatus = true ∧
    ∃ e, (saveNetworkConfig demoEnv invalidModel none).1.connectionStatus =
      "Validation failed: " ++ e :=
  c5_validation_failure_frame demoEnv invalidModel none (by decide)

/-- Closed instance of c6_persist_failure_keeps_commit for custom1 with a
failing write. -/
theorem c6_persist_failure_keeps_commit_witness :
    (saveNetworkConfig failSaveEnv demoModel none).1.connectionStatus =
      "Failed to save config: failed to write config file" ∧
    (saveNetworkConfig failSaveEnv demoModel none).1.showStatus = true ∧
    mapFind demoModel.networkBuffer.name
        (saveNetworkConfig failSaveEnv demoModel none).1.networkInfos =
      some demoModel.networkBuffer ∧
    demoModel.networkBuffer.name ∈ (saveNetworkConfig failSaveEnv demoModel none).1.networks ∧
    findCustomNetwork (saveNetworkConfig failSaveEnv demoModel none).1.config.customNetworks
        demoModel.networkBuffer.name = some demoModel.networkBuffer ∧
    (match demoModel.networks.findIdx? (fun n => n = demoModel.networkBuffer.name) with
     | some i => (saveNetworkConfig failSaveEnv demoModel none).1.cursor = i
     | none => (saveNetworkConfig failSaveEnv demoModel none).1.cursor =
         demoModel.networks.length) ∧
    (saveNetworkConfig failSaveEnv demoModel none).2 = none :=
  c6_persist_failure_keeps_commit failSaveEnv demoModel none rfl (by decide) rfl

/-! ## Key events and commands (bubbletea surface) -/

/-- A key event: typed runes or a named special key.  keyString mirrors
Go msg.String(); the backspace check mirrors msg.Type == KeyBackspace. -/
inductive KeyMsg where
  | runes (s : String)
  | special (n : String)
deriving DecidableEq, Repr

/-- Go msg.String(). -/
def KeyMsg.keyString : KeyMsg → String
  | .runes s => s
  | .special n => n

/-- The only command the navigation claims observe: tea.Quit. -/
inductive TeaCmd where
  | quit
deriving DecidableEq, Repr

/-- Remove the last character, the Go slice s[:len(s)-1]. -/
def stringDropLast (s : String) : String :=
  ⟨s.data.dropLast⟩

/-! ## Settings screen update loop (part of package settings) -/

/-- Go method getNetworkField. -/
def getNetworkField (m : SettingsModel) (field : String) : String :=
  if field = "name" then m.networkBuffer.name
  else if field = "algod_url" then m.networkBuffer.algodURL
  else if field = "algod_port" then m.networkBuffer.algodPort
  else if field = "algod_token" then m.networkBuffer.algodToken
  else if field = "indexer_url" then m.networkBuffer.indexerURL
  else if field = "indexer_port" then m.networkBuffer.indexerPort
  else if field = "indexer_token" then m.networkBuffer.indexerToken
  else ""

/-- Go method setNetworkField. -/
def setNetworkField (m : SettingsModel) (field value : String) : SettingsModel :=
  if field = "name" then { m with networkBuffer := { m.networkBuffer with name := value } }
  else if field = "algod_url" then
    { m with networkBuffer := { m.networkBuffer with algodURL := value } }
  else if field = "algod_port" then
    { m with networkBuffer := { m.networkBuffer with algodPort := value } }
  else if field = "algod_token" then
    { m with networkBuffer := { m.networkBuffer with algodToken := value } }
  else if field = "indexer_url" then
    { m with networkBuffer := { m.networkBuffer with indexerURL := value } }
  else if field = "indexer_port" then
    { m with networkBuffer := { m.networkBuffer with indexerPort := value } }
  else if field = "indexer_token" then
    { m with networkBuffer := { m.networkBuffer with indexerToken := value } }
  else m

/-- The buffer seeded by the create-network action (key c). -/
def defaultCustomBuffer : NetworkInfo :=
  ⟨"custom", "http://localhost", "4001", "", "http://localhost", "8980", ""⟩

/-- Go method handleNetworkEditing: tab cycling, enter saves, esc
cancels, otherwise runes append to and backspace trims the active
field. -/
def handleNetworkEditing (env : SysEnv) (key : KeyMsg) (m : SettingsModel)
    (fs : Option Config) : SettingsModel × Option Config :=
  if key.keyString = "enter" then
    let (m2, fs2) := saveNetworkConfig env m fs
    ({ m2 with editingNetwork := false }, fs2)
  else if key.keyString = "esc" then
    ({ m with editingNetwork := false, networkBuffer := NetworkInfo.empty }, fs)
  else
    let m1 :=
      if key.keyString = "tab" then { m with editField := getNextField m.editField }
      else if key.keyString = "shift+tab" then { m with editField := getPrevField m.editField }
      else m
    match key with
    | .runes s =>
      (setNetworkField m1 m1.editField (getNetworkField m1 m1.editField ++ s), fs)
    | .special n =>
      if n = "backspace" then
        let current := getNetworkField m1 m1.editField
        if 0 < current.length then
          (setNetworkField m1 m1.editField (stringDropLast current), fs)
        else (m1, fs)
      else (m1, fs)

/-- Go method SettingsModel.Update.  Every Go return is (m, nil); the
always-nil command is therefore not part of the result type.  Priorities:
network editing, then wallet editing, then normal mode. -/
def settingsUpdate (env : SysEnv) (key : KeyMsg) (m : SettingsModel)
    (fs : Option Config) : SettingsModel × Option Config :=
  if m.editingNetwork then
    handleNetworkEditing env key m fs
  else if m.editingAddr then
    if key.keyString = "enter" then
      let cfg := { m.config with walletAddr := m.inputBuffer }
      let (fs2, _) := saveConfigFS env fs cfg
      ({ m with config := cfg, editingAddr := false }, fs2)
    else if key.keyString = "esc" then
      ({ m with editingAddr := false, inputBuffer := "" }, fs)
    else
      match key with
      | .runes s => ({ m with inputBuffer := m.inputBuffer ++ s }, fs)
      | .special n =>
        if n = "backspace" then
          if 0 < m.inputBuffer.length then
            ({ m with inputBuffer := stringDropLast m.inputBuffer }, fs)
          else (m, fs)
        else (m, fs)
  else
    if key.keyString = "up" then
      (if 0 < m.cursor then
        { m with cursor := m.cursor - 1, showStatus := false, connectionStatus := "" }
       else m, fs)
    else if key.keyString = "down" then
      (if m.cursor < m.networks.length - 1 then
        { m with cursor := m.cursor + 1, showStatus := false, connectionStatus := "" }
       else m, fs)
    else if key.keyString = "enter" then
      let selected := m.networks.getD m.cursor ""
      match mapFind selected m.networkInfos with
      | none => (m, fs)
      | some info =>
        match (testNetworkConnection env.net m.networkManager info).2 with
        | some e =>
          ({ m with connectionStatus := "Failed to connect to " ++ selected ++ ": " ++ e,
                    showStatus := true }, fs)
        | none =>
          let cfg := { m.config with network := selected }
          let (fs2, _) := saveConfigFS env fs cfg
          let (nm2, cerr) := connectToNetwork env.net m.networkManager info
          let status :=
            match cerr with
            | some e => "Connection failed: " ++ e
            | none => "Successfully connected to " ++ selected
          ({ m with config := cfg, networkManager := nm2,
                    connectionStatus := status, showStatus := true }, fs2)
    else if key.keyString = "t" then
      let selected := m.networks.getD m.cursor ""
      match mapFind selected m.networkInfos with
      | none => (m, fs)
      | some info =>
        match (testNetworkConnection env.net m.networkManager info).2 with
        | some e =>
          ({ m with connectionStatus := "Test failed for " ++ selected ++ ": " ++ e,
                    showStatus := true }, fs)
        | none =>
          ({ m with connectionStatus := "Test successful for " ++ selected,
                    showStatus := true }, fs)
    else if key.keyString = " " then
      (if m.showStatus then { m with showStatus := false, connectionStatus := "" } else m, fs)
    else if key.keyString = "e" then
      ({ m with editingAddr := true, inputBuffer := m.config.walletAddr }, fs)
    else if key.keyString = "n" then
      let selected := m.networks.getD m.cursor ""
      match mapFind selected m.networkInfos with
      | none => (m, fs)
      | some info =>
        ({ m with editingNetwork := true, networkBuffer := info,
                  editField := "algod_url", showStatus := false, connectionStatus := "" }, fs)
    else if key.keyString = "c" then
      ({ m with editingNetwork := true, networkBuffer := defaultCustomBuffer,
                editField := "name", showStatus := false, connectionStatus := "" }, fs)
    else (m, fs)

/-- Go method IsEditingAddr: true in either editing sub-mode. -/
def isEditingAddr (m : SettingsModel) : Bool :=
  m.editingAddr || m.editingNetwork

/-- Go method ResetEditingState. -/
def resetEditingState (m : SettingsModel) : SettingsModel :=
  { m with editingAddr := false, inputBuffer := "", editingNetwork := false,
           networkBuffer := NetworkInfo.empty, showStatus := false,
           connectionStatus := "" }

/-! ## Project menu, command builder and the other leaf screens -/

/-- The fixed project-menu labels. -/
def projectOptions : List String :=
  ["Settings", "Applications", "Commands Goals", "Explore"]

/-- Go struct ProjectModel: cursor plus the Selected key set (at most one
key is ever present; modelled as a list of keys). -/
structure ProjectModel where
  cursor : Nat
  selected : List Nat
deriving DecidableEq, Repr

/-- Go method ProjectModel.Update: quit on ctrl+c or q, bounded cursor
moves, and enter or space selecting the hovered entry (clearing any
previous selection). -/
def projectUpdate (key : KeyMsg) (p : ProjectModel) : ProjectModel × Option TeaCmd :=
  if key.keyString = "ctrl+c" ∨ key.keyString = "q" then (p, some .quit)
  else if key.keyString = "up" ∨ key.keyString = "k" then
    (if 0 < p.cursor then { p with cursor := p.cursor - 1 } else p, none)
  else if key.keyString = "down" ∨ key.keyString = "j" then
    (if p.cursor < projectOptions.length - 1 then { p with cursor := p.cursor + 1 } else p,
     none)
  else if key.keyString = "enter" ∨ key.keyString = " " then
    ({ p with selected := [p.cursor] }, none)
  else (p, none)

/-- The six entries of the command-builder menu. -/
def goalNavItems : List String :=
  ["Payment (clerk send)", "ASA Transfer (asset send)", "App Call (app call/method)",
   "Atomic Group (clerk group)", "Sign / Send (clerk sign/rawsend)", "Inspect / Simulate"]

/-- Go struct GOALModel, reduced to its ListNav cursor: the builders it
hosts keep per-field text state that no navigation claim observes, and
every builder Update in the source returns a nil command. -/
structure GOALModel where
  navCursor : Nat
deriving DecidableEq, Repr

/-- Go method GOALModel.Update: quit on ctrl+c or esc, bounded ListNav
moves on up and down, everything else delegated to the active builder
(whose Update always returns a nil command). -/
def goalUpdate (key : KeyMsg) (g : GOALModel) : GOALModel × Option TeaCmd :=
  if key.keyString = "ctrl+c" ∨ key.keyString = "esc" then (g, some .quit)
  else if key.keyString = "up" then
    (if 0 < g.navCursor then { g with navCursor := g.navCursor - 1 } else g, none)
  else if key.keyString = "down" then
    (if g.navCursor < goalNavItems.length - 1 then { g with navCursor := g.navCursor + 1 }
     else g, none)
  else (g, none)

/-- Modelled from the spec: the ApplicationsModel and ExploreModel
sources are not provided (main.go only constructs them and delegates key
events).  Spec section 3 ScreenState gives every screen a cursor, an
editing-mode flag and an input buffer; section 4.1 has every screen
accept the quit command and use cancel to leave a nested editing
sub-mode. -/
structure LeafScreen where
  cursor : Nat
  editing : Bool
  buffer : String
deriving DecidableEq, Repr

/-- Modelled from the spec: quit on q or ctrl+c; a delegated cancel exits
the editing sub-mode and discards the buffer. -/
def leafScreenUpdate (key : KeyMsg) (s : LeafScreen) : LeafScreen × Option TeaCmd :=
  if key.keyString = "ctrl+c" ∨ key.keyString = "q" then (s, some .quit)
  else if key.keyString = "esc" then
    (if s.editing then { s with editing := false, buffer := "" } else s, none)
  else (s, none)

/-! ## Navigation state machine (main.go) -/

/-- Go type SessionState with its six values. -/
inductive SessionState where
  | MainView
  | ProjectView
  | SettingsView
  | ApplicationsView
  | CmdGoalsView
  | ExploreView
deriving DecidableEq, Repr

/-- Go struct MainModel (layout fields omitted: rendering only). -/
structure MainModel where
  currentState : SessionState
  project : ProjectModel
  settings : SettingsModel
  apps : LeafScreen
  goals : GOALModel
  explore : LeafScreen
deriving DecidableEq, Repr

/-- Go method MainModel.Update on key events, with the configuration
file threaded through for the settings screen. -/
def mainUpdate (env : SysEnv) (key : KeyMsg) (mm : MainModel) (fs : Option Config) :
    MainModel × Option Config × Option TeaCmd :=
  match mm.currentState with
  | .MainView =>
    let mm := { mm with project := { mm.project with selected := [], cursor := 0 } }
    if key.keyString = "enter" then
      ({ mm with currentState := .ProjectView }, fs, none)
    else if key.keyString = "ctrl+c" ∨ key.keyString = "q" then
      (mm, fs, some .quit)
    else (mm, fs, none)
  | .ProjectView =>
    if key.keyString = "esc" then
      ({ mm with currentState := .MainView,
                 project := { mm.project with selected := [] } }, fs, none)
    else
      let (p2, cmd) := projectUpdate key mm.project
      match p2.selected with
      | [i] =>
        let mm2 :=
          if projectOptions.getD i "" = "Settings" then
            { mm with currentState := .SettingsView,
                      settings := resetEditingState mm.settings }
          else if projectOptions.getD i "" = "Applications" then
            { mm with currentState := .ApplicationsView }
          else if projectOptions.getD i "" = "Commands Goals" then
            { mm with currentState := .CmdGoalsView }
          else if projectOptions.getD i "" = "Explore" then
            { mm with currentState := .ExploreView }
          else mm
        ({ mm2 with project := { p2 with selected := [] } }, fs, cmd)
      | _ => ({ mm with project := p2 }, fs, cmd)
  | .SettingsView =>
    let wasEditingAddr := isEditingAddr mm.settings
    let (s2, fs2) := settingsUpdate env key mm.settings fs
    if key.keyString = "esc" ∧ wasEditingAddr = false then
      ({ mm with settings := resetEditingState s2, currentState := .ProjectView },
       fs2, none)
    else
      ({ mm with settings := s2 }, fs2, none)
  | .ApplicationsView =>
    if key.keyString = "esc" then
      ({ mm with currentState := .ProjectView }, fs, none)
    else
      let (a2, cmd) := leafScreenUpdate key mm.apps
      ({ mm with apps := a2 }, fs, cmd)
  | .CmdGoalsView =>
    if key.keyString = "esc" then
      ({ mm with currentState := .ProjectView }, fs, none)
    else
      let (g2, cmd) := goalUpdate key mm.goals
      ({ mm with goals := g2 }, fs, cmd)
  | .ExploreView =>
    if key.keyString = "esc" then
      ({ mm with currentState := .ProjectView }, fs, none)
    else
      let (e2, cmd) := leafScreenUpdate key mm.explore
      ({ mm with explore := e2 }, fs, cmd)

/-! ## Concrete navigation states -/

/-- A settings screen in plain browsing mode. -/
def browsingSettings : SettingsModel :=
  ⟨⟨"testnet", "", []⟩, ["localnet", "testnet", "mainnet"], [], 0, false, "", false, "",
   NetworkInfo.empty, newNetworkManager, "", false⟩

/-- A full navigation state sitting on the given screen, every screen in
its initial non-editing shape. -/
def navMain (st : SessionState) : MainModel :=
  ⟨st, ⟨0, []⟩, browsingSettings, ⟨0, false, ""⟩, ⟨0⟩, ⟨0, false, ""⟩⟩

/-- An applications screen mid-way through editing its input buffer. -/
def editingApps : LeafScreen := ⟨0, true, "draft"⟩

/-- The navigation state on the applications screen with an edit open. -/
def c4Main : MainModel := { navMain .ApplicationsView with apps := editingApps }

/-- The navigation state on the settings screen with the profile form
open. -/
def editingSettingsMain : MainModel :=
  { navMain .SettingsView with settings := { browsingSettings with editingNetwork := true } }

/-! ## C3 and C4 theorems -/

/-- C3 counterexample: on the settings screen neither q nor ctrl+c
produces the quit command, and the q key leaves navigation on the
settings screen. -/
theorem c3_quit_counterexample :
    (mainUpdate demoEnv (KeyMsg.runes "q") (navMain .SettingsView) none).2.2 = none ∧
    (mainUpdate demoEnv (KeyMsg.special "ctrl+c") (navMain .SettingsView) none).2.2 = none ∧
    (mainUpdate demoEnv (KeyMsg.runes "q") (navMain .SettingsView) none).1.currentState =
      .SettingsView := by
  refine ⟨by decide, by decide, by decide⟩

/-- C3 (amended): the quit inputs q and ctrl+c produce the quit command
from MainMenu, ProjectMenu, ApplicationsScreen and ExploreScreen; on
CommandBuilderScreen only ctrl+c produces it (q is delegated to the
builder, which returns no command); on SettingsScreen no key ever
produces a command, so neither quit input terminates the program there. -/
theorem c3_quit_handling :
    (∀ (env : SysEnv) (mm : MainModel) (fs : Option Config) (key : KeyMsg),
      mm.currentState = .MainView →
      (key = KeyMsg.runes "q" ∨ key = KeyMsg.special "ctrl+c") →
      (mainUpdate env key mm fs).2.2 = some .quit) ∧
    (∀ (env : SysEnv) (mm : MainModel) (fs : Option Config) (key : KeyMsg),
      mm.currentState = .ProjectView →
      (key = KeyMsg.runes "q" ∨ key = KeyMsg.special "ctrl+c") →
      (mainUpdate env key mm fs).2.2 = some .quit) ∧
    (∀ (env : SysEnv) (mm : MainModel) (fs : Option Config) (key : KeyMsg),
      (mm.currentState = .ApplicationsView ∨ mm.currentState = .ExploreView) →
      (key = KeyMsg.runes "q" ∨ key = KeyMsg.special "ctrl+c") →
      (mainUpdate env key mm fs).2.2 = some .quit) ∧
    (∀ (env : SysEnv) (mm : MainModel) (fs : Option Config),
      mm.currentState = .CmdGoalsView →
      (mainUpdate env (KeyMsg.special "ctrl+c") mm fs).2.2 = some .quit ∧
      (mainUpdate env (KeyMsg.runes "q") mm fs).2.2 = none) ∧
    (∀ (env : SysEnv) (mm : MainModel) (fs : Option Config) (key : KeyMsg),
      mm.currentState = .SettingsView →
      (mainUpdate env key mm fs).2.2 = none) := by
  refine ⟨?_, ?_, ?_, ?_, ?_⟩
  · intro env mm fs key h hk
    rcases hk with rfl | rfl <;> simp [mainUpdate, h, KeyMsg.keyString]
  · intro env mm fs key h hk
    rcases hk with rfl | rfl <;>
      simp [mainUpdate, h, projectUpdate, KeyMsg.keyString] <;>
      rcases mm.project.selected with _ | ⟨i, _ | ⟨j, rest⟩⟩ <;> simp
  · intro env mm fs key h hk
    rcases h with h | h <;> rcases hk with rfl | rfl <;>
      simp [mainUpdate, h, leafScreenUpdate, KeyMsg.keyString]
  · intro env mm fs h
    constructor <;> simp [mainUpdate, h, goalUpdate, KeyMsg.keyString]
  · intro env mm fs key h
    simp only [mainUpdate, h]
    split <;> rfl

/-- Closed instance of c3_quit_handling: q quits from the main menu. -/
theorem c3_quit_handling_witness :
    (mainUpdate demoEnv (KeyMsg.runes "q") (navMain .MainView) none).2.2 = some .quit :=
  c3_quit_handling.1 demoEnv (navMain .MainView) none (KeyMsg.runes "q") rfl (Or.inl rfl)

/-- C4 counterexample: on the applications screen with an editing
sub-mode open, esc is consumed for navigation (to ProjectMenu) and is
never delegated — the screen state is untouched and still mid-edit. -/
theorem c4_esc_counterexample :
    c4Main.apps.editing = true ∧
    (mainUpdate demoEnv (KeyMsg.special "esc") c4Main none).1.currentState = .ProjectView ∧
    (mainUpdate demoEnv (KeyMsg.special "esc") c4Main none).1.apps = editingApps := by
  refine ⟨by decide, by decide, by decide⟩

/-- C4 (amended): only SettingsScreen gets the query-before-consume
treatment: the navigation layer reads its edit-mode state (IsEditingAddr)
and, when mid-edit, leaves navigation unchanged while the delegated esc
exits the active sub-mode; when not mid-edit, esc navigates to
ProjectMenu.  On Applications, CommandBuilder and Explore screens esc is
consumed for navigation unconditionally and never delegated. -/
theorem c4_esc_navigation :
    (∀ (env : SysEnv) (mm : MainModel) (fs : Option Config),
      mm.currentState = .SettingsView → isEditingAddr mm.settings = true →
      (mainUpdate env (KeyMsg.special "esc") mm fs).1.currentState = .SettingsView ∧
      (mainUpdate env (KeyMsg.special "esc") mm fs).1.settings =
        (settingsUpdate env (KeyMsg.special "esc") mm.settings fs).1) ∧
    (∀ (env : SysEnv) (mm : MainModel) (fs : Option Config),
      mm.currentState = .SettingsView → isEditingAddr mm.settings = false →
      (mainUpdate env (KeyMsg.special "esc") mm fs).1.currentState = .ProjectView) ∧
    (∀ (env : SysEnv) (m : SettingsModel) (fs : Option Config),
      m.editingNetwork = true →
      (settingsUpdate env (KeyMsg.special "esc") m fs).1.editingNetwork = false) ∧
    (∀ (env : SysEnv) (m : SettingsModel) (fs : Option Config),
      m.editingNetwork = false → m.editingAddr = true →
      (settingsUpdate env (KeyMsg.special "esc") m fs).1.editingAddr = false) ∧
    (∀ (env : SysEnv) (mm : MainModel) (fs : Option Config),
      mm.currentState = .ApplicationsView →
      (mainUpdate env (KeyMsg.special "esc") mm fs).1.currentState = .ProjectView ∧
      (mainUpdate env (KeyMsg.special "esc") mm fs).1.apps = mm.apps) ∧
    (∀ (env : SysEnv) (mm : MainModel) (fs : Option Config),
      mm.currentState = .CmdGoalsView →
      (mainUpdate env (KeyMsg.special "esc") mm fs).1.currentState = .ProjectView ∧
      (mainUpdate env (KeyMsg.special "esc") mm fs).1.goals = mm.goals) ∧
    (∀ (env : SysEnv) (mm : MainModel) (fs : Option Config),
      mm.currentState = .ExploreView →
      (mainUpdate env (KeyMsg.special "esc") mm fs).1.currentState = .ProjectView ∧
      (mainUpdate env (KeyMsg.special "esc") mm fs).1.explore = mm.explore) := by
  refine ⟨?_, ?_, ?_, ?_, ?_, ?_, ?_⟩
  · intro env mm fs h he
    simp [mainUpdate, h, he, KeyMsg.keyString]
  · intro env mm fs h he
    simp [mainUpdate, h, he, KeyMsg.keyString]
  · intro env m fs h
    simp [settingsUpdate, h, handleNetworkEditing, KeyMsg.keyString]
  · intro env m fs hn ha
    simp [settingsUpdate, hn, ha, KeyMsg.keyString]
  · intro env mm fs h
    simp [mainUpdate, h, KeyMsg.keyString]
  · intro env mm fs h
    simp [mainUpdate, h, KeyMsg.keyString]
  · intro env mm fs h
    simp [mainUpdate, h, KeyMsg.keyString]

/-- Closed instance of c4_esc_navigation: esc on the settings screen
with the profile form open stays on the settings screen and delegates. -/
theorem c4_esc_navigation_witness :
    (mainUpdate demoEnv (KeyMsg.special "esc") editingSettingsMain none).1.currentState =
      .SettingsView ∧
    (mainUpdate demoEnv (KeyMsg.special "esc") editingSettingsMain none).1.settings =
      (settingsUpdate demoEnv (KeyMsg.special "esc") editingSettingsMain.settings none).1 :=
  c4_esc_navigation.1 demoEnv editingSettingsMain none rfl (by decide)

end LazyChain
